import Mathlib

/-!
Shallow embedding of `src/privmsg.js` (Discord Private Messenger Bot).

The bot keeps an in-memory `InteractionManager` (a Map from user id to a
mutable session object) and drives a per-operator workflow:
`/message` creates a session and renders role buttons; a role-selection
button stores the chosen role and renders a preview with confirm / edit /
cancel buttons; `edit_message` creates a message collector (`max: 1`)
waiting for the next message by the same author; `confirm_send` fans out
one DM per role member (bots short-circuited to `success: false`),
tallies the outcomes, renders a report and deletes the session;
`cancel_send` and `/cancel` delete the session.

Embedding conventions:
- Discord snowflake ids and user tags are `String`s.
- A button custom id such as `confirm_send_<authorId>` is embedded as its
  `split` by underscore, i.e. the token list `["confirm", "send", authorId]`;
  `.pop()` is `List.getLastD`, `split('_')[2]` is `List.getD 2`.
- Side effects performed against the Discord SDK (replies, preview edits,
  DM sends, message deletion, collector creation) are recorded in an
  ordered `List Effect` returned next to the new machine state.
- The session map is an association list with JS-`Map` semantics; the
  closure mutation of a session object fetched from the map is embedded
  as an in-place update of the map entry (`updateState`).
- A `member.send` that rejects is embedded through the environment oracle
  `sendOk : Member -> Bool`; the send attempt itself is the recorded
  `Effect.sendDM`, emitted whether or not the promise rejects.
-/

namespace PrivMsg

/-- `member.user` in discord.js: id, tag and the bot flag. -/
structure User where
  id : String
  tag : String
  bot : Bool
deriving DecidableEq

/-- A guild member as used by the handler (`member.user`, `member.send`). -/
structure Member where
  user : User
deriving DecidableEq

/-- `guild.roles.cache` entry: id, name and its member collection. -/
structure Role where
  id : String
  name : String
  members : List Member
deriving DecidableEq

/-- The per-operator session object stored in `interactionManager`
(`currentMessage`, `previewMessage`, `selectedRole`, `failedUsers`,
`successfulUsers`).  `previewMessage` is a handle (message id) of the
single preview message the workflow edits in place. -/
structure Session where
  currentMessage : String
  previewMessage : Option Nat
  selectedRole : Option Role
  failedUsers : List String
  successfulUsers : List String
deriving DecidableEq

/-- The `InteractionManager` map, keyed by operator id. -/
abbrev Store := List (String × Session)

/-- `interactionManager.getState(userId)` (JS `Map.get`). -/
def getState : Store → String → Option Session
  | [], _ => none
  | (k, v) :: rest, uid => if k = uid then some v else getState rest uid

/-- `interactionManager.setState(userId, state)` (JS `Map.set`): replace
the existing entry in place, or append a new one. -/
def setState : Store → String → Session → Store
  | [], uid, s => [(uid, s)]
  | (k, v) :: rest, uid, s =>
      if k = uid then (uid, s) :: rest else (k, v) :: setState rest uid s

/-- `interactionManager.deleteState(userId)` (JS `Map.delete`). -/
def deleteState : Store → String → Store
  | [], _ => []
  | (k, v) :: rest, uid =>
      if k = uid then deleteState rest uid else (k, v) :: deleteState rest uid

/-- `interactionManager.hasState(userId)` (JS `Map.has`). -/
def hasState (st : Store) (uid : String) : Bool :=
  (getState st uid).isSome

/-- Mutation of the session object obtained from the map
(e.g. `interactionManager.getState(authorId).previewMessage = preview`):
updates the entry in place when present, no-op otherwise. -/
def updateState : Store → String → (Session → Session) → Store
  | [], _, _ => []
  | (k, v) :: rest, uid, f =>
      if k = uid then (k, f v) :: rest else (k, v) :: updateState rest uid f

/-- An embed field (`name` / `value`) as added by `addFields`. -/
structure EmbedField where
  name : String
  value : String
deriving DecidableEq

/-- The parts of an `EmbedBuilder` the handlers vary: title, description
and fields (colors and footers are constant decoration). -/
structure Embed where
  title : String
  description : String
  fields : List EmbedField
deriving DecidableEq

/-- Observable side effects the handlers perform against Discord.
Button components are recorded by their custom id token lists. -/
inductive Effect where
  | replyEphemeral (title : String)
  | reply (title : String)
  | deferReply
  | deferUpdate
  | fetchMembers
  | editPreview (content : String) (embeds : List Embed)
      (components : List (List String))
  | sendDM (userId : String) (content : String)
  | deleteMsg (msgId : Nat)
  | deleteSession (userId : String)
  | createCollector (authorId : String) (maxMessages : Nat)
  | stopCollector
deriving DecidableEq

/-- The message collector created by the `edit_message` handler:
filter `msg.author.id === authorId`, `max: 1`.  The collect callback is
a closure over the session object `state` that was looked up when the
edit button was pressed; `captured` is that session.  (No code path
mutates the session object between collector creation and collection —
cancellation only removes it from the map — so the snapshot agrees with
the live object whenever the callback runs.) -/
structure Collector where
  authorId : String
  maxMessages : Nat
  captured : Session
deriving DecidableEq

/-- Global bot state: the session map plus the pending collector, if any. -/
structure Machine where
  store : Store
  collector : Option Collector
deriving DecidableEq

/-- A channel message, as seen by the collector. -/
structure Msg where
  authorId : String
  content : String
  id : Nat
deriving DecidableEq

/-- Per-event environment: configuration, guild data and the DM oracle.
`invokerRoles` is `interaction.member.roles.cache` of the interacting
user; `fetchRole` is `guild.roles.fetch`; `sendOk m` tells whether
`m.send(...)` resolves (false: the promise rejects, e.g. closed DMs). -/
structure Env where
  supportRoleId : String
  guildRoles : List Role
  invokerRoles : List String
  fetchRole : String → Option Role
  sendOk : Member → Bool

/-! ## Button custom ids (token-list embedding of the underscore strings) -/

/-- `select_role_<roleId>_<authorId>`. -/
def selectRoleBtn (roleId authorId : String) : List String :=
  ["select", "role", roleId, authorId]

/-- `confirm_send_<authorId>`. -/
def confirmBtn (authorId : String) : List String :=
  ["confirm", "send", authorId]

/-- `edit_message_<authorId>`. -/
def editBtn (authorId : String) : List String :=
  ["edit", "message", authorId]

/-- `cancel_send_<authorId>`. -/
def cancelBtn (authorId : String) : List String :=
  ["cancel", "send", authorId]

/-! ## Fan-out sender (`confirm_send` handler, Promise.all over members) -/

/-- One entry of the `Promise.all` result array: `{ member, success }`. -/
structure SendResult where
  member : Member
  success : Bool
deriving DecidableEq

/-- One arm of the fan-out map: bots short-circuit to
`{ member, success: false }` with no send; otherwise one `member.send`
is attempted, which succeeds or rejects according to `env.sendOk`. -/
def sendOne (env : Env) (content : String) (m : Member) :
    SendResult × List Effect :=
  if m.user.bot then ({ member := m, success := false }, [])
  else if env.sendOk m then
    ({ member := m, success := true }, [Effect.sendDM m.user.id content])
  else
    ({ member := m, success := false }, [Effect.sendDM m.user.id content])

/-- The `sendMessages` array produced by `Promise.all`. -/
def fanOutResults (env : Env) (content : String) (members : List Member) :
    List SendResult :=
  members.map fun m => (sendOne env content m).1

/-- The send attempts performed during the fan-out, in member order. -/
def fanOutEffects (env : Env) (content : String) (members : List Member) :
    List Effect :=
  (members.map fun m => (sendOne env content m).2).flatten

/-- The tally accumulated by `sendMessages.forEach`. -/
structure Tally where
  successCount : Nat
  successfulUsers : List String
  failedUsers : List String
deriving DecidableEq

/-- The body of `sendMessages.forEach`: push the tag onto the success or
the failure list; count successes. -/
def tallyStep (t : Tally) (r : SendResult) : Tally :=
  if r.success then
    { t with
      successCount := t.successCount + 1
      successfulUsers := t.successfulUsers ++ [r.member.user.tag] }
  else
    { t with failedUsers := t.failedUsers ++ [r.member.user.tag] }

/-- `sendMessages.forEach(...)` run over the whole result array, in
result order. -/
def tallyResults (rs : List SendResult) : Tally :=
  rs.foldl tallyStep
    { successCount := 0, successfulUsers := [], failedUsers := [] }

/-! ## Report renderer (`chunkArray` and the failed-user fields) -/

/-- `chunkArray(arr, size)`:
`Array.from({length: Math.ceil(arr.length / size)}, (v, i) =>
  arr.slice(i * size, i * size + size))`. -/
def chunkArray {α : Type} (arr : List α) (size : Nat) : List (List α) :=
  (List.range ((arr.length + size - 1) / size)).map fun i =>
    (arr.drop (i * size)).take size

/-- Base text of the failed-user field name. -/
def failedFieldBase : String :=
  "Users who did not receive the message"

/-- The field name used for chunk `index` of `total` chunks: a `(i/N)`
suffix is appended exactly when more than one chunk exists. -/
def failedFieldName (total index : Nat) : String :=
  if total > 1 then
    failedFieldBase ++ " (" ++ toString (index + 1) ++ "/" ++
      toString total ++ ")"
  else failedFieldBase

/-- The embed fields listing the failed users, `usersPerField = 25`:
one field per chunk, value a newline-joined bullet list. -/
def failedUserFields (failedUsers : List String) : List EmbedField :=
  if failedUsers.length > 0 then
    (chunkArray failedUsers 25).enum.map fun p =>
      { name := failedFieldName (chunkArray failedUsers 25).length p.1
        value := String.intercalate "\n" (p.2.map fun u => "- " ++ u) }
  else []

/-- The `resultEmbed` of the `confirm_send` handler. -/
def resultEmbed (role : Role) (currentMessage : String) (t : Tally) :
    Embed :=
  { title := "Message Sent"
    description :=
      if t.failedUsers.length > 0 then
        "The message was sent to " ++ toString t.successCount ++
          " members of the " ++ role.name ++ " role. Unable to send to " ++
          toString t.failedUsers.length ++ " members."
      else "All messages were delivered successfully!"
    fields :=
      { name := "Sent Message", value := currentMessage } ::
        failedUserFields t.failedUsers }

/-! ## Static embeds -/

/-- The role-selection prompt embed. -/
def selectRoleEmbed : Embed :=
  { title := "Select a Role"
    description := "Choose the role you want to send the message to."
    fields := [] }

/-- The preview embed rendered after role selection. -/
def previewEmbed (roleName currentMessage : String) : Embed :=
  { title := "Message Preview"
    description :=
      "You selected the role: " ++ roleName ++ " Message: " ++
        currentMessage
    fields := [] }

/-- The editing prompt embed. -/
def editingEmbed : Embed :=
  { title := "Editing Message"
    description := "Please enter the new message below."
    fields := [] }

/-- The updated preview embed rendered by the collect callback.  Its
description reads `state.selectedRole.members.size` (the confirm-button
label repeats the same read), so building it requires the captured
session to have a selected role. -/
def updatedPreviewEmbed (content : String) (memberCount : Nat) : Embed :=
  { title := "Updated Preview"
    description :=
      "Message: " ++ content ++
        " Please select one of the options below. This role has " ++
        toString memberCount ++ " members."
    fields := [] }

/-- The cancellation notice embed (button path and `/cancel` path). -/
def cancelledEmbed : Embed :=
  { title := "Interaction Cancelled"
    description := "The interaction was cancelled with success."
    fields := [] }

/-! ## Command handlers -/

/-- The `/message` command handler.  `content` is the required string
option; `previewHandle` is the id of the message returned by
`editReply`, stored into the session as `previewMessage`. -/
def messageCommand (env : Env) (m : Machine) (authorId content : String)
    (previewHandle : Nat) : Machine × List Effect :=
  if hasState m.store authorId then
    (m, [Effect.replyEphemeral "Active Interaction"])
  else if !(env.invokerRoles.contains env.supportRoleId) then
    (m, [Effect.replyEphemeral "Permission Denied"])
  else
    let store1 := setState m.store authorId
      { currentMessage := content
        previewMessage := none
        selectedRole := none
        failedUsers := []
        successfulUsers := [] }
    let roles := env.guildRoles.filter fun r => r.members.length ≥ 2
    if roles.length = 0 then
      ({ m with store := deleteState store1 authorId },
       [Effect.fetchMembers, Effect.replyEphemeral "No Roles Found",
        Effect.deleteSession authorId])
    else
      let buttons := roles.map fun r => selectRoleBtn r.id authorId
      let store2 := updateState store1 authorId fun s =>
        { s with previewMessage := some previewHandle }
      ({ m with store := store2 },
       [Effect.fetchMembers, Effect.deferReply,
        Effect.editPreview "" [selectRoleEmbed] buttons])

/-- The `/cancel` command handler. -/
def cancelCommand (env : Env) (m : Machine) (authorId : String) :
    Machine × List Effect :=
  if !(env.invokerRoles.contains env.supportRoleId) then
    (m, [Effect.replyEphemeral "No Permission"])
  else if !(hasState m.store authorId) then
    (m, [Effect.replyEphemeral "No Active Interaction"])
  else
    let previewEffects :=
      match getState m.store authorId with
      | some s =>
          if s.previewMessage.isSome then
            [Effect.editPreview "Interaction manually cancelled with success."
              [] []]
          else []
      | none => []
    ({ m with store := deleteState m.store authorId },
     previewEffects ++
       [Effect.deleteSession authorId, Effect.deferReply,
        Effect.reply "Interaction Cancelled"])

/-! ## Button handlers -/

/-- The `select_role_` branch (state already looked up). -/
def selectRole (env : Env) (m : Machine) (authorId : String)
    (state : Session) (roleId : String) : Machine × List Effect :=
  match env.fetchRole roleId with
  | none =>
      ({ m with store := deleteState m.store authorId },
       [Effect.editPreview
          "The selected role was not found. Please try again." [] [],
        Effect.deleteSession authorId])
  | some role =>
      let state1 := { state with selectedRole := some role }
      ({ m with store := setState m.store authorId state1 },
       [Effect.deferUpdate,
        Effect.editPreview ""
          [previewEmbed role.name state.currentMessage]
          [confirmBtn authorId, editBtn authorId, cancelBtn authorId]])

/-- The `confirm_send_` branch: fan out, tally, render the report,
delete the session. -/
def confirmSend (env : Env) (m : Machine) (authorId : String)
    (state : Session) : Machine × List Effect :=
  match state.selectedRole with
  | none =>
      ({ m with store := deleteState m.store authorId },
       [Effect.deferUpdate,
        Effect.editPreview
          "No role was selected to send the message." [] [],
        Effect.deleteSession authorId])
  | some role =>
      let t := tallyResults (fanOutResults env state.currentMessage
        role.members)
      let state1 :=
        { state with
          failedUsers := t.failedUsers
          successfulUsers := t.successfulUsers }
      ({ m with
          store := deleteState (setState m.store authorId state1) authorId },
       Effect.deferUpdate ::
         fanOutEffects env state.currentMessage role.members ++
           [Effect.editPreview ""
              [resultEmbed role state.currentMessage t] [],
            Effect.deleteSession authorId])

/-- The `edit_message_` branch: render the editing prompt and create a
collector for the next message by the same author (`max: 1`). -/
def editMessage (env : Env) (m : Machine) (authorId : String)
    (state : Session) : Machine × List Effect :=
  ({ m with
      collector :=
        some { authorId := authorId, maxMessages := 1, captured := state } },
   [Effect.deferUpdate, Effect.editPreview "" [editingEmbed] [],
    Effect.createCollector authorId 1])

/-- The `cancel_send_` branch: delete the session and edit the preview
to a cancellation notice.  The collector, if any, is left untouched. -/
def cancelSend (env : Env) (m : Machine) (authorId : String)
    (state : Session) : Machine × List Effect :=
  ({ m with store := deleteState m.store authorId },
   [Effect.deferUpdate, Effect.deleteSession authorId,
    Effect.editPreview "" [cancelledEmbed] []])

/-- The `interaction.isButton()` dispatcher: extracts the author id as
the last underscore token of the custom id and silently ignores presses
by anyone else; then looks up the session and routes on the custom-id
action tokens. -/
def buttonHandler (env : Env) (m : Machine) (authorId : String)
    (customId : List String) : Machine × List Effect :=
  let authorIdFromCustomId := customId.getLastD ""
  if authorId ≠ authorIdFromCustomId then (m, [])
  else
    match getState m.store authorId with
    | none => (m, [Effect.replyEphemeral "Interaction Not Found"])
    | some state =>
      match customId with
      | "select" :: "role" :: _ =>
          selectRole env m authorId state (customId.getD 2 "")
      | "confirm" :: "send" :: _ => confirmSend env m authorId state
      | "edit" :: "message" :: _ => editMessage env m authorId state
      | "cancel" :: "send" :: _ => cancelSend env m authorId state
      | _ => (m, [])

/-- A channel message arriving while the collector (if any) is pending:
a message matching the author filter is collected.  The collect callback
first overwrites `state.currentMessage` on the captured session object
(reflected in the map when the entry is still present), then builds the
updated embed and buttons, which read `state.selectedRole.members.size`:
when `selectedRole` is unset this dereference throws inside the async
listener before `msg.delete()` runs, so neither the message deletion nor
the preview edit happens (the collector still ends, its `max: 1` having
been collected).  Otherwise the collected message is deleted, the
preview re-rendered with the three action buttons, and the collector
stops (`max: 1` plus the explicit `collector.stop()`). -/
def onChannelMessage (m : Machine) (msg : Msg) : Machine × List Effect :=
  match m.collector with
  | none => (m, [])
  | some c =>
      if msg.authorId = c.authorId then
        let store1 := updateState m.store c.authorId fun s =>
          { s with currentMessage := msg.content }
        match c.captured.selectedRole with
        | none => ({ store := store1, collector := none }, [])
        | some role =>
            ({ store := store1, collector := none },
             [Effect.deleteMsg msg.id,
              Effect.editPreview ""
                [updatedPreviewEmbed msg.content role.members.length]
                [confirmBtn c.authorId, editBtn c.authorId,
                 cancelBtn c.authorId],
              Effect.stopCollector])
      else (m, [])

/-! ## Concrete fixtures used to evaluate the model -/

/-- A baseline environment: one configured support role held by the
invoker, an empty role cache, every DM deliverable. -/
def env0 : Env :=
  { supportRoleId := "support"
    guildRoles := []
    invokerRoles := ["support"]
    fetchRole := fun _ => none
    sendOk := fun _ => true }

/-- A baseline session as created by `/message content:"hello"` after
the preview was rendered. -/
def session0 : Session :=
  { currentMessage := "hello"
    previewMessage := some 7
    selectedRole := none
    failedUsers := []
    successfulUsers := [] }

/-- `m1`: a bot account. -/
def memberBot : Member := ⟨⟨"1", "m1", true⟩⟩

/-- `m2`: a regular member whose DMs are open. -/
def memberOk : Member := ⟨⟨"2", "m2", false⟩⟩

/-- `m3`: a regular member whose DM send rejects. -/
def memberBlocked : Member := ⟨⟨"3", "m3", false⟩⟩

/-- Environment where sending to user id 3 rejects. -/
def envC1 : Env := { env0 with sendOk := fun m => !(m.user.id == "3") }

/-- A role with two regular members, as selected during role selection. -/
def roleTeam : Role := { id := "10", name := "team", members := [memberOk, memberBlocked] }

/-- A session in the Editing stage: the role has been selected (the edit
button only exists on the preview rendered after role selection). -/
def sessionEditing : Session := { session0 with selectedRole := some roleTeam }

/-- A machine in the Editing stage: operator `A` has a session with a
selected role and a pending `max: 1` message collector capturing that
session. -/
def machineC3 : Machine :=
  { store := [("A", sessionEditing)]
    collector :=
      some { authorId := "A", maxMessages := 1, captured := sessionEditing } }

/-! ## Session-store lemmas -/

theorem getState_setState_self (st : Store) (uid : String) (s : Session) :
    getState (setState st uid s) uid = some s := by
  induction st with
  | nil => simp [setState, getState]
  | cons p rest ih =>
      obtain ⟨k, v⟩ := p
      by_cases h : k = uid <;> simp [setState, getState, h, ih]

theorem getState_deleteState (st : Store) (uid : String) :
    getState (deleteState st uid) uid = none := by
  induction st with
  | nil => rfl
  | cons p rest ih =>
      obtain ⟨k, v⟩ := p
      by_cases h : k = uid <;> simp [deleteState, getState, h, ih]

theorem hasState_deleteState (st : Store) (uid : String) :
    hasState (deleteState st uid) uid = false := by
  simp [hasState, getState_deleteState]

theorem hasState_iff_getState (st : Store) (uid : String) :
    hasState st uid = false ↔ getState st uid = none := by
  cases h : getState st uid <;> simp [hasState, h]

theorem deleteState_setState_fresh (st : Store) (uid : String)
    (s : Session) (h : hasState st uid = false) :
    deleteState (setState st uid s) uid = st := by
  induction st with
  | nil => simp [setState, deleteState]
  | cons p rest ih =>
      obtain ⟨k, v⟩ := p
      rw [hasState_iff_getState] at h ih
      by_cases hk : k = uid
      · simp [getState, hk] at h
      · simp [getState, hk] at h
        simp [setState, deleteState, hk, ih h]

theorem getState_updateState_self (st : Store) (uid : String)
    (f : Session → Session) :
    getState (updateState st uid f) uid = (getState st uid).map f := by
  induction st with
  | nil => rfl
  | cons p rest ih =>
      obtain ⟨k, v⟩ := p
      by_cases h : k = uid <;> simp [updateState, getState, h, ih]

/-! ## Fan-out lemmas -/

theorem fanOutEffects_eq (env : Env) (content : String) :
    ∀ ms : List Member,
      fanOutEffects env content ms =
        (ms.filter fun m => !m.user.bot).map fun m =>
          Effect.sendDM m.user.id content := by
  intro ms
  induction ms with
  | nil => rfl
  | cons m rest ih =>
      by_cases hb : m.user.bot
      · simpa [fanOutEffects, sendOne, hb] using ih
      · by_cases hs : env.sendOk m <;>
          simpa [fanOutEffects, sendOne, hb, hs] using ih

theorem tally_foldl (rs : List SendResult) :
    ∀ t : Tally,
      rs.foldl tallyStep t =
        { successCount :=
            t.successCount + (rs.filter fun r => r.success).length
          successfulUsers :=
            t.successfulUsers ++
              (rs.filter fun r => r.success).map fun r => r.member.user.tag
          failedUsers :=
            t.failedUsers ++
              (rs.filter fun r => !r.success).map fun r =>
                r.member.user.tag } := by
  induction rs with
  | nil => intro t; simp
  | cons r rest ih =>
      intro t
      by_cases hr : r.success <;>
        simp [tallyStep, hr, ih, Nat.add_assoc, Nat.add_comm]

theorem tallyResults_spec (rs : List SendResult) :
    tallyResults rs =
      { successCount := (rs.filter fun r => r.success).length
        successfulUsers :=
          (rs.filter fun r => r.success).map fun r => r.member.user.tag
        failedUsers :=
          (rs.filter fun r => !r.success).map fun r =>
            r.member.user.tag } := by
  simp [tallyResults, tally_foldl]

theorem fanOut_successfulUsers (env : Env) (content : String) :
    ∀ ms : List Member,
      (tallyResults (fanOutResults env content ms)).successfulUsers =
        (ms.filter fun m => !m.user.bot && env.sendOk m).map fun m =>
          m.user.tag := by
  intro ms
  rw [tallyResults_spec]
  induction ms with
  | nil => rfl
  | cons m rest ih =>
      by_cases hb : m.user.bot
      · simpa [fanOutResults, sendOne, hb] using ih
      · by_cases hs : env.sendOk m <;>
          simpa [fanOutResults, sendOne, hb, hs] using ih

theorem fanOut_failedUsers (env : Env) (content : String) :
    ∀ ms : List Member,
      (tallyResults (fanOutResults env content ms)).failedUsers =
        (ms.filter fun m => m.user.bot || !env.sendOk m).map fun m =>
          m.user.tag := by
  intro ms
  rw [tallyResults_spec]
  induction ms with
  | nil => rfl
  | cons m rest ih =>
      by_cases hb : m.user.bot
      · simpa [fanOutResults, sendOne, hb] using ih
      · by_cases hs : env.sendOk m <;>
          simpa [fanOutResults, sendOne, hb, hs] using ih

/-! ## Chunking lemmas -/

theorem chunk_aux {α : Type} (s : Nat) (l : List α) :
    ∀ k : Nat,
      ((List.range k).map fun i => (l.drop (i * s)).take s).flatten =
        l.take (k * s) := by
  intro k
  induction k with
  | zero => simp
  | succ k ih =>
      rw [List.range_succ, List.map_append, List.flatten_append, ih]
      simp only [List.map_cons, List.map_nil, List.flatten_cons,
        List.flatten_nil, List.append_nil]
      rw [Nat.succ_mul, List.take_add]

theorem ceil_mul_ge (n s : Nat) (hs : 0 < s) :
    n ≤ ((n + s - 1) / s) * s := by
  rcases Nat.eq_zero_or_pos n with h0 | h1
  · simp [h0]
  · have key : n + s - 1 < ((n + s - 1) / s) * s + s := by
      have h2 := (Nat.div_lt_iff_lt_mul hs).mp
        (Nat.lt_succ_self ((n + s - 1) / s))
      calc n + s - 1 < ((n + s - 1) / s + 1) * s := h2
        _ = ((n + s - 1) / s) * s + s := by rw [Nat.succ_mul]
    revert key
    generalize ((n + s - 1) / s) * s = t
    intro key
    omega

theorem chunkArray_flatten {α : Type} (l : List α) (s : Nat)
    (hs : 0 < s) : (chunkArray l s).flatten = l := by
  unfold chunkArray
  rw [chunk_aux]
  exact List.take_of_length_le (ceil_mul_ge l.length s hs)

theorem chunkArray_length {α : Type} (l : List α) (s : Nat) :
    (chunkArray l s).length = (l.length + s - 1) / s := by
  simp [chunkArray]

theorem chunkArray_chunk_le {α : Type} (l : List α) (s : Nat) :
    ∀ c ∈ chunkArray l s, c.length ≤ s := by
  intro c hc
  simp only [chunkArray, List.mem_map, List.mem_range] at hc
  obtain ⟨i, _, rfl⟩ := hc
  simp [List.length_take]

theorem enum_map_fst_comp {α β : Type} (f : Nat → β) (l : List α) :
    l.enum.map (fun p => f p.1) = (List.range l.length).map f := by
  have h1 : l.enum.map (fun p => f p.1) = (l.enum.map Prod.fst).map f :=
    (List.map_map f Prod.fst l.enum).symm
  rw [h1, List.enum_map_fst]

theorem failedUserFields_names (l : List String) (h : l ≠ []) :
    (failedUserFields l).map EmbedField.name =
      (List.range (chunkArray l 25).length).map
        (failedFieldName (chunkArray l 25).length) := by
  have hlen : l.length > 0 := List.length_pos.mpr h
  simp only [failedUserFields, if_pos hlen]
  rw [List.map_map]
  exact enum_map_fst_comp (failedFieldName (chunkArray l 25).length)
    (chunkArray l 25)

/-! ## Claim theorems -/

/-- C1 counterexample: on the member list `{m1 bot, m2 ok, m3 blocked}`
the code reports `successfulUsers = [m2]` but
`failedUsers = [m1, m3]`, not `[m3]` — the skipped bot is tallied as a
failed recipient (no send is attempted for it, as the attempt list
shows). -/
theorem C1_counterexample :
    (tallyResults (fanOutResults envC1 "hello"
      [memberBot, memberOk, memberBlocked])).successfulUsers = ["m2"] ∧
    (tallyResults (fanOutResults envC1 "hello"
      [memberBot, memberOk, memberBlocked])).failedUsers = ["m1", "m3"] ∧
    fanOutEffects envC1 "hello" [memberBot, memberOk, memberBlocked] =
      [Effect.sendDM "2" "hello", Effect.sendDM "3" "hello"] ∧
    ¬ (tallyResults (fanOutResults envC1 "hello"
      [memberBot, memberOk, memberBlocked])).failedUsers = ["m3"] := by
  decide

/-- C1 (amended): in the fan-out, every bot member is skipped without a
send attempt but is tallied into `failedUsers`; every non-bot member
gets exactly one send attempt, landing in `successfulUsers` if it
succeeds and in `failedUsers` if it rejects, one failure never aborting
the batch. -/
theorem C1_fanout_amended (env : Env) (content : String)
    (members : List Member) :
    fanOutEffects env content members =
      (members.filter fun m => !m.user.bot).map (fun m =>
        Effect.sendDM m.user.id content) ∧
    (tallyResults (fanOutResults env content members)).successfulUsers =
      (members.filter fun m => !m.user.bot && env.sendOk m).map (fun m =>
        m.user.tag) ∧
    (tallyResults (fanOutResults env content members)).failedUsers =
      (members.filter fun m => m.user.bot || !env.sendOk m).map (fun m =>
        m.user.tag) :=
  ⟨fanOutEffects_eq env content members,
   fanOut_successfulUsers env content members,
   fanOut_failedUsers env content members⟩

/-- C2: invoking `/message` while the operator already has a session is
rejected with the "Active Interaction" notice and leaves the machine —
in particular the existing session — completely unchanged. -/
theorem C2_single_session (env : Env) (m : Machine)
    (authorId content : String) (previewHandle : Nat)
    (h : hasState m.store authorId = true) :
    messageCommand env m authorId content previewHandle =
      (m, [Effect.replyEphemeral "Active Interaction"]) := by
  simp [messageCommand, h]

theorem C2_witness :
    hasState [("A", session0)] "A" = true ∧
    messageCommand env0 { store := [("A", session0)], collector := none }
        "A" "hi" 0 =
      ({ store := [("A", session0)], collector := none },
       [Effect.replyEphemeral "Active Interaction"]) :=
  ⟨by decide,
   C2_single_session env0 { store := [("A", session0)], collector := none }
     "A" "hi" 0 (by decide)⟩

/-- C3 counterexample: with operator `A` in the Editing stage (role
`team` selected, active `max: 1` collector capturing the session),
pressing the cancel button deletes the session but leaves the collector
pending; a message `A` sends afterwards is still collected — it is
deleted from the channel and the preview is re-rendered with the three
action buttons (the captured session still carries the selected role, so
the callback runs to completion). -/
theorem C3_counterexample :
    (buttonHandler env0 machineC3 "A" (cancelBtn "A")).1.collector =
      some { authorId := "A", maxMessages := 1
             captured := sessionEditing } ∧
    hasState (buttonHandler env0 machineC3 "A" (cancelBtn "A")).1.store
      "A" = false ∧
    (onChannelMessage (buttonHandler env0 machineC3 "A" (cancelBtn "A")).1
        { authorId := "A", content := "stray", id := 42 }).2 =
      [Effect.deleteMsg 42,
       Effect.editPreview ""
         [updatedPreviewEmbed "stray" roleTeam.members.length]
         [confirmBtn "A", editBtn "A", cancelBtn "A"],
       Effect.stopCollector] := by
  decide

/-- C3 (amended): for a session in the Editing stage (selected role in
place, pending collector), the cancel button and the `/cancel` command
delete the session but neither stops the pending message collector; a
message the operator sends after cancellation is still consumed by the
collector — the message is deleted and the preview re-rendered with the
three action buttons, the captured session still holding the selected
role — and only then does the collector deactivate, having reached its
max of one message. -/
theorem C3_cancel_amended (env : Env) (m : Machine) (authorId : String)
    (state : Session) (c : Collector) (role : Role) (msg : Msg)
    (hc : m.collector = some c)
    (hsel : c.captured.selectedRole = some role)
    (hmsg : msg.authorId = c.authorId) :
    (cancelSend env m authorId state).1.collector = some c ∧
    hasState (cancelSend env m authorId state).1.store authorId = false ∧
    (cancelCommand env m authorId).1.collector = m.collector ∧
    (onChannelMessage (cancelSend env m authorId state).1 msg).2 =
      [Effect.deleteMsg msg.id,
       Effect.editPreview ""
         [updatedPreviewEmbed msg.content role.members.length]
         [confirmBtn c.authorId, editBtn c.authorId, cancelBtn c.authorId],
       Effect.stopCollector] ∧
    (onChannelMessage (cancelSend env m authorId state).1 msg).1.collector
      = none := by
  refine ⟨by simp [cancelSend, hc], hasState_deleteState m.store authorId,
    ?_, ?_, ?_⟩
  · unfold cancelCommand
    split
    · rfl
    · split
      · rfl
      · rfl
  · simp [cancelSend, onChannelMessage, hc, hmsg, hsel]
  · simp [cancelSend, onChannelMessage, hc, hmsg, hsel]

theorem C3_cancel_amended_witness :
    machineC3.collector =
      some { authorId := "A", maxMessages := 1
             captured := sessionEditing } ∧
    sessionEditing.selectedRole = some roleTeam ∧
    ("A" : String) = "A" ∧
    ((cancelSend env0 machineC3 "A" sessionEditing).1.collector =
      some { authorId := "A", maxMessages := 1
             captured := sessionEditing } ∧
     hasState (cancelSend env0 machineC3 "A" sessionEditing).1.store "A" =
       false ∧
     (cancelCommand env0 machineC3 "A").1.collector =
       machineC3.collector ∧
     (onChannelMessage (cancelSend env0 machineC3 "A" sessionEditing).1
         { authorId := "A", content := "stray", id := 42 }).2 =
       [Effect.deleteMsg 42,
        Effect.editPreview ""
          [updatedPreviewEmbed "stray" roleTeam.members.length]
          [confirmBtn "A", editBtn "A", cancelBtn "A"],
        Effect.stopCollector] ∧
     (onChannelMessage (cancelSend env0 machineC3 "A" sessionEditing).1
         { authorId := "A", content := "stray", id := 42 }).1.collector =
       none) :=
  ⟨by decide, rfl, rfl,
   C3_cancel_amended env0 machineC3 "A" sessionEditing
     { authorId := "A", maxMessages := 1, captured := sessionEditing }
     roleTeam
     { authorId := "A", content := "stray", id := 42 }
     (by decide) (by decide) (by decide)⟩

/-- C4: report chunking with chunk size 25 — the failed-recipient list
is split into `ceil(n / 25)` chunks of at most 25 entries each whose
concatenation is the input list in order, and the report field names
enumerate the chunks, carrying a `(i/N)` suffix exactly when more than
one chunk exists. -/
theorem C4_report_chunking (l : List String) (h : l ≠ []) :
    (chunkArray l 25).length = (l.length + 25 - 1) / 25 ∧
    (∀ c ∈ chunkArray l 25, c.length ≤ 25) ∧
    (chunkArray l 25).flatten = l ∧
    (failedUserFields l).map EmbedField.name =
      (List.range (chunkArray l 25).length).map
        (failedFieldName (chunkArray l 25).length) ∧
    (∀ i : Nat, 1 < (chunkArray l 25).length →
      failedFieldName (chunkArray l 25).length i =
        failedFieldBase ++ " (" ++ toString (i + 1) ++ "/" ++
          toString (chunkArray l 25).length ++ ")") ∧
    ((chunkArray l 25).length = 1 →
      ∀ i : Nat, failedFieldName (chunkArray l 25).length i =
        failedFieldBase) := by
  refine ⟨chunkArray_length l 25, chunkArray_chunk_le l 25,
    chunkArray_flatten l 25 (by norm_num), failedUserFields_names l h,
    ?_, ?_⟩
  · intro i hi
    simp [failedFieldName, hi]
  · intro h1 i
    simp [failedFieldName, h1]

theorem C4_witness :
    ((List.range 60).map (fun i => "u" ++ toString i) ≠ [] ∧
     ((chunkArray ((List.range 60).map fun i => "u" ++ toString i)
         25).length =
       (((List.range 60).map fun i => "u" ++ toString i).length + 25 - 1)
         / 25 ∧
      (∀ c ∈ chunkArray ((List.range 60).map fun i => "u" ++ toString i)
          25, c.length ≤ 25) ∧
      (chunkArray ((List.range 60).map fun i => "u" ++ toString i)
          25).flatten =
        (List.range 60).map (fun i => "u" ++ toString i) ∧
      (failedUserFields
          ((List.range 60).map fun i => "u" ++ toString i)).map
          EmbedField.name =
        (List.range (chunkArray
            ((List.range 60).map fun i => "u" ++ toString i) 25).length).map
          (failedFieldName (chunkArray
            ((List.range 60).map fun i => "u" ++ toString i) 25).length) ∧
      (∀ i : Nat, 1 < (chunkArray
          ((List.range 60).map fun i => "u" ++ toString i) 25).length →
        failedFieldName (chunkArray
            ((List.range 60).map fun i => "u" ++ toString i) 25).length i =
          failedFieldBase ++ " (" ++ toString (i + 1) ++ "/" ++
            toString (chunkArray
              ((List.range 60).map fun i => "u" ++ toString i)
                25).length ++ ")") ∧
      ((chunkArray ((List.range 60).map fun i => "u" ++ toString i)
          25).length = 1 →
        ∀ i : Nat, failedFieldName (chunkArray
            ((List.range 60).map fun i => "u" ++ toString i) 25).length i =
          failedFieldBase))) ∧
    (failedUserFields ((List.range 60).map fun i => "u" ++
        toString i)).map EmbedField.name =
      [failedFieldBase ++ " (1/3)", failedFieldBase ++ " (2/3)",
       failedFieldBase ++ " (3/3)"] :=
  ⟨⟨by decide,
    C4_report_chunking ((List.range 60).map fun i => "u" ++ toString i)
      (by decide)⟩,
   by decide⟩

/-- C5: an authorized operator with no active session invoking
`/message` when no role has at least two members gets the "No Roles
Found" notice and ends with no session in the store — the transient
session created mid-handler is torn down, leaving the machine exactly
as it was. -/
theorem C5_no_eligible_roles (env : Env) (m : Machine)
    (authorId content : String) (previewHandle : Nat)
    (hperm : env.invokerRoles.contains env.supportRoleId = true)
    (hfree : hasState m.store authorId = false)
    (hroles : env.guildRoles.filter (fun r => r.members.length ≥ 2) = []) :
    messageCommand env m authorId content previewHandle =
      (m, [Effect.fetchMembers, Effect.replyEphemeral "No Roles Found",
           Effect.deleteSession authorId]) := by
  have hmem : env.supportRoleId ∈ env.invokerRoles := by simpa using hperm
  simp [messageCommand, hmem, hfree, hroles,
    deleteState_setState_fresh m.store authorId _ hfree]

theorem C5_witness :
    env0.invokerRoles.contains env0.supportRoleId = true ∧
    hasState ([] : Store) "A" = false ∧
    env0.guildRoles.filter (fun r => r.members.length ≥ 2) = [] ∧
    messageCommand env0 { store := [], collector := none } "A" "hi" 0 =
      ({ store := [], collector := none },
       [Effect.fetchMembers, Effect.replyEphemeral "No Roles Found",
        Effect.deleteSession "A"]) :=
  ⟨by decide, by decide, rfl,
   C5_no_eligible_roles env0 { store := [], collector := none } "A" "hi" 0
     (by decide) (by decide) rfl⟩

/-- C6: a button press by user `B` on a button whose custom id embeds
the id of operator `A` (its last underscore token) is a complete no-op: no
reply, no render, no store or collector change. -/
theorem C6_foreign_press (env : Env) (m : Machine) (presser a : String)
    (customId : List String) (hlast : customId.getLastD "" = a)
    (hne : presser ≠ a) :
    buttonHandler env m presser customId = (m, []) := by
  have h2 : customId.getLast?.getD "" = a := by
    rw [← List.getLastD_eq_getLast?]
    exact hlast
  simp [buttonHandler, h2, hne]

theorem C6_witness :
    (["confirm", "send", "A"].getLastD "" = "A") ∧
    ("B" : String) ≠ "A" ∧
    buttonHandler env0 { store := [], collector := none } "B"
        ["confirm", "send", "A"] =
      ({ store := [], collector := none }, []) :=
  ⟨rfl, by decide,
   C6_foreign_press env0 { store := [], collector := none } "B" "A"
     ["confirm", "send", "A"] rfl (by decide)⟩

/-- C7: the edit step (reached from the preview, so the session holds a
selected role) renders the editing prompt and creates a `max: 1`
collector capturing the session; the next message by the same operator
is consumed exactly once — its content replaces the session field
`currentMessage`, the triggering message is deleted, the preview is
re-rendered with the confirm / edit / cancel buttons, and the collector
deactivates, so a later message is not consumed. -/
theorem C7_edit_consumes_one (env : Env) (m : Machine)
    (authorId : String) (state : Session) (role : Role) (msg msg2 : Msg)
    (hstate : getState m.store authorId = some state)
    (hsel : state.selectedRole = some role)
    (hmsg : msg.authorId = authorId) :
    (editMessage env m authorId state).1.collector =
      some { authorId := authorId, maxMessages := 1, captured := state } ∧
    (editMessage env m authorId state).2 =
      [Effect.deferUpdate, Effect.editPreview "" [editingEmbed] [],
       Effect.createCollector authorId 1] ∧
    getState (onChannelMessage (editMessage env m authorId state).1
        msg).1.store authorId =
      some { state with currentMessage := msg.content } ∧
    (onChannelMessage (editMessage env m authorId state).1 msg).1.collector
      = none ∧
    (onChannelMessage (editMessage env m authorId state).1 msg).2 =
      [Effect.deleteMsg msg.id,
       Effect.editPreview ""
         [updatedPreviewEmbed msg.content role.members.length]
         [confirmBtn authorId, editBtn authorId, cancelBtn authorId],
       Effect.stopCollector] ∧
    onChannelMessage (onChannelMessage (editMessage env m authorId
        state).1 msg).1 msg2 =
      ((onChannelMessage (editMessage env m authorId state).1 msg).1,
       []) := by
  refine ⟨rfl, rfl, ?_, ?_, ?_, ?_⟩
  · simp [editMessage, onChannelMessage, hmsg, hsel,
      getState_updateState_self, hstate]
  · simp [editMessage, onChannelMessage, hmsg, hsel]
  · simp [editMessage, onChannelMessage, hmsg, hsel]
  · simp [editMessage, onChannelMessage, hmsg, hsel]

theorem C7_witness :
    getState [("A", sessionEditing)] "A" = some sessionEditing ∧
    sessionEditing.selectedRole = some roleTeam ∧
    ("A" : String) = "A" ∧
    ((editMessage env0
        { store := [("A", sessionEditing)], collector := none }
        "A" sessionEditing).1.collector =
      some { authorId := "A", maxMessages := 1
             captured := sessionEditing } ∧
     (editMessage env0
        { store := [("A", sessionEditing)], collector := none }
        "A" sessionEditing).2 =
       [Effect.deferUpdate, Effect.editPreview "" [editingEmbed] [],
        Effect.createCollector "A" 1] ∧
     getState (onChannelMessage (editMessage env0
         { store := [("A", sessionEditing)], collector := none } "A"
         sessionEditing).1
         { authorId := "A", content := "edited", id := 5 }
         ).1.store "A" =
       some { sessionEditing with currentMessage := "edited" } ∧
     (onChannelMessage (editMessage env0
         { store := [("A", sessionEditing)], collector := none } "A"
         sessionEditing).1
         { authorId := "A", content := "edited", id := 5 }
         ).1.collector = none ∧
     (onChannelMessage (editMessage env0
         { store := [("A", sessionEditing)], collector := none } "A"
         sessionEditing).1
         { authorId := "A", content := "edited", id := 5 }
         ).2 =
       [Effect.deleteMsg 5,
        Effect.editPreview ""
          [updatedPreviewEmbed "edited" roleTeam.members.length]
          [confirmBtn "A", editBtn "A", cancelBtn "A"],
        Effect.stopCollector] ∧
     onChannelMessage (onChannelMessage (editMessage env0
         { store := [("A", sessionEditing)], collector := none } "A"
         sessionEditing).1
         { authorId := "A", content := "edited", id := 5 }
         ).1 { authorId := "A", content := "again", id := 6 } =
       ((onChannelMessage (editMessage env0
           { store := [("A", sessionEditing)], collector := none } "A"
           sessionEditing).1
           { authorId := "A", content := "edited", id := 5 }
           ).1, [])) :=
  ⟨rfl, rfl, rfl,
   C7_edit_consumes_one env0
     { store := [("A", sessionEditing)], collector := none } "A"
     sessionEditing roleTeam
     { authorId := "A", content := "edited", id := 5 }
     { authorId := "A", content := "again", id := 6 } rfl rfl rfl⟩

theorem count_deleteSession_fanOut (env : Env) (content : String)
    (ms : List Member) (uid : String) :
    (fanOutEffects env content ms).count (Effect.deleteSession uid)
      = 0 := by
  rw [fanOutEffects_eq, List.count_eq_zero]
  simp

/-- C8: the confirm handler always tears the session down — whether it
aborts for a missing `selectedRole` or completes the fan-out and the
report — and, like both cancel paths, emits exactly one session
deletion; no path leaves the session dangling. -/
theorem C8_session_teardown (env : Env) (m : Machine)
    (authorId : String) (state : Session)
    (hperm : env.invokerRoles.contains env.supportRoleId = true)
    (hactive : hasState m.store authorId = true) :
    hasState (confirmSend env m authorId state).1.store authorId = false ∧
    (confirmSend env m authorId state).2.count
      (Effect.deleteSession authorId) = 1 ∧
    hasState (cancelSend env m authorId state).1.store authorId = false ∧
    (cancelSend env m authorId state).2.count
      (Effect.deleteSession authorId) = 1 ∧
    hasState (cancelCommand env m authorId).1.store authorId = false ∧
    (cancelCommand env m authorId).2.count
      (Effect.deleteSession authorId) = 1 := by
  have hmem : env.supportRoleId ∈ env.invokerRoles := by simpa using hperm
  refine ⟨?_, ?_, ?_, ?_, ?_, ?_⟩
  · cases hsel : state.selectedRole <;>
      simp [confirmSend, hsel, hasState_deleteState]
  · cases hsel : state.selectedRole <;>
      simp [confirmSend, hsel, List.count_cons, List.count_append,
        count_deleteSession_fanOut]
  · simp [cancelSend, hasState_deleteState]
  · simp [cancelSend, List.count_cons]
  · simp [cancelCommand, hmem, hactive, hasState_deleteState]
  · cases hg : getState m.store authorId with
    | none =>
        rw [hasState, hg] at hactive
        simp at hactive
    | some s =>
        by_cases hp : s.previewMessage.isSome <;>
          simp [cancelCommand, hmem, hactive, hg, hp, List.count_cons,
            List.count_append]

theorem C8_witness :
    env0.invokerRoles.contains env0.supportRoleId = true ∧
    hasState [("A", session0)] "A" = true ∧
    (hasState (confirmSend env0
        { store := [("A", session0)], collector := none } "A"
        session0).1.store "A" = false ∧
     (confirmSend env0 { store := [("A", session0)], collector := none }
        "A" session0).2.count (Effect.deleteSession "A") = 1 ∧
     hasState (cancelSend env0
        { store := [("A", session0)], collector := none } "A"
        session0).1.store "A" = false ∧
     (cancelSend env0 { store := [("A", session0)], collector := none }
        "A" session0).2.count (Effect.deleteSession "A") = 1 ∧
     hasState (cancelCommand env0
        { store := [("A", session0)], collector := none } "A").1.store
        "A" = false ∧
     (cancelCommand env0 { store := [("A", session0)], collector := none }
        "A").2.count (Effect.deleteSession "A") = 1) :=
  ⟨by decide, by decide,
   C8_session_teardown env0
     { store := [("A", session0)], collector := none } "A" session0
     (by decide) (by decide)⟩

/-- C9: invoking cancel again after the session is gone is harmless at
the interface — the `/cancel` command answers with the "No Active
Interaction" notice and the cancel button press with the "Interaction
Not Found" notice, neither re-renders a cancellation view, and the
machine is unchanged in both cases. -/
theorem C9_cancel_idempotent (env : Env) (m : Machine)
    (authorId : String)
    (hperm : env.invokerRoles.contains env.supportRoleId = true)
    (hnost : hasState m.store authorId = false) :
    cancelCommand env m authorId =
      (m, [Effect.replyEphemeral "No Active Interaction"]) ∧
    buttonHandler env m authorId (cancelBtn authorId) =
      (m, [Effect.replyEphemeral "Interaction Not Found"]) := by
  have hmem : env.supportRoleId ∈ env.invokerRoles := by simpa using hperm
  have hget : getState m.store authorId = none :=
    (hasState_iff_getState m.store authorId).mp hnost
  constructor
  · simp [cancelCommand, hmem, hnost]
  · simp [buttonHandler, cancelBtn, hget]

theorem C9_witness :
    env0.invokerRoles.contains env0.supportRoleId = true ∧
    hasState ([] : Store) "A" = false ∧
    (cancelCommand env0 { store := [], collector := none } "A" =
      ({ store := [], collector := none },
       [Effect.replyEphemeral "No Active Interaction"]) ∧
     buttonHandler env0 { store := [], collector := none } "A"
        (cancelBtn "A") =
      ({ store := [], collector := none },
       [Effect.replyEphemeral "Interaction Not Found"])) :=
  ⟨by decide, by decide,
   C9_cancel_idempotent env0 { store := [], collector := none } "A"
     (by decide) (by decide)⟩

/-- C10: a role-selection press whose role id no longer resolves edits
the preview to the role-not-found notice and deletes the session of the
operator — the session is gone afterwards, so `selectedRole` is never
set and the workflow cannot continue. -/
theorem C10_role_unresolvable (env : Env) (m : Machine)
    (authorId roleId : String) (state : Session)
    (hstate : getState m.store authorId = some state)
    (hrole : env.fetchRole roleId = none) :
    buttonHandler env m authorId (selectRoleBtn roleId authorId) =
      ({ m with store := deleteState m.store authorId },
       [Effect.editPreview
          "The selected role was not found. Please try again." [] [],
        Effect.deleteSession authorId]) ∧
    getState (buttonHandler env m authorId
        (selectRoleBtn roleId authorId)).1.store authorId = none := by
  have key : buttonHandler env m authorId
      (selectRoleBtn roleId authorId) =
      ({ m with store := deleteState m.store authorId },
       [Effect.editPreview
          "The selected role was not found. Please try again." [] [],
        Effect.deleteSession authorId]) := by
    simp [buttonHandler, selectRoleBtn, hstate, selectRole, hrole]
  refine ⟨key, ?_⟩
  rw [key]
  exact getState_deleteState m.store authorId

theorem C10_witness :
    getState [("A", session0)] "A" = some session0 ∧
    env0.fetchRole "999" = none ∧
    (buttonHandler env0 { store := [("A", session0)], collector := none }
        "A" (selectRoleBtn "999" "A") =
      ({ store := deleteState [("A", session0)] "A", collector := none },
       [Effect.editPreview
          "The selected role was not found. Please try again." [] [],
        Effect.deleteSession "A"]) ∧
     getState (buttonHandler env0
        { store := [("A", session0)], collector := none } "A"
        (selectRoleBtn "999" "A")).1.store "A" = none) :=
  ⟨rfl, rfl,
   C10_role_unresolvable env0
     { store := [("A", session0)], collector := none } "A" "999"
     session0 rfl rfl⟩

end PrivMsg
